import Mathlib

set_option maxRecDepth 8000

/-!
Verification development for the OutbreakX-NG front-end map subsystem.

Shallow embedding of:
- `src/app/shared/geojson.utils.ts` (the Geometry Codec: `layerToGeoJSON`,
  `geoJSONToLayer`);
- `src/app/map/map.ts` (the map component: project subscription, GeoJSON
  load/save, GeoJSON import, route drawing);
- `src/app/services/project.service.ts` (`selectProject`,
  `updateActiveProjectGeoJSON`).

Modelling conventions:
- JavaScript numbers are modelled as `Rat` (exact rationals); the source
  performs no arithmetic on coordinates, so no rounding behaviour is lost.
- A JavaScript value that may be `null`/`undefined` is an `Option`.
- JavaScript truthiness is modelled explicitly where the source relies on it
  (`"" `, `0`, `null` are falsy; arrays and non-empty strings are truthy).
- A plain JavaScript object used as an options/style bag is a key-value list
  (`JsObj`); a later duplicate key wins on lookup, matching object-literal and
  spread (`{ radius: r, ...style }`) semantics.
- The Leaflet map engine is an external collaborator; its surface is modelled
  as the tagged union `Layer` of the layer shapes this program constructs:
  `L.marker`, `L.circle`, `L.polyline`, `L.polygon`, and `L.geoJSON` (which
  returns a GeoJSON feature-group layer, not one of the four vector shapes).
  Two engine facts matter to the source's `instanceof` dispatch and property
  reads: `L.Polygon` extends `L.Polyline`, so every polygon layer satisfies
  `instanceof L.Polyline` and is captured by the polyline branch of
  `layerToGeoJSON` (the source's own polygon branch is unreachable); and a
  marker built without an explicit icon exposes the engine's `Icon.Default`
  through `options.icon` (prototype chain), so `icon?.options?.iconUrl` is
  never undefined on a marker.  `map.on('click', h)` attaches a listener
  without detaching previous ones; `map.off('click', h)` detaches exactly
  that listener.
-/

namespace OutbreakX

/-- A primitive JavaScript value stored in an options/style object
(colors are strings; weight, opacity, radius are numbers). -/
inductive JsVal
  | str (s : String)
  | num (q : Rat)
deriving DecidableEq

/-- A JavaScript object used as an options/style bag: ordered key-value pairs.
Later duplicate keys win, as in object literals and spreads. -/
def JsObj : Type := List (String × JsVal)

instance : DecidableEq JsObj := by
  unfold JsObj
  infer_instance

instance : BEq JsObj := ⟨fun a b => decide (a = b)⟩

/-- Property lookup on a `JsObj`: the LAST binding of the key wins,
as for a JavaScript object literal built left to right. -/
def jsLookup (key : String) (obj : JsObj) : Option JsVal :=
  (obj.reverse.find? (fun e => e.1 == key)).map (fun e => e.2)

/-- A Leaflet `LatLng`: latitude first, longitude second (the on-canvas order). -/
structure LatLng where
  lat : Rat
  lng : Rat
deriving DecidableEq, BEq

/-- A GeoJSON position is a coordinate array `[a, b]`, modelled as an ordered
pair: `.1` is index 0, `.2` is index 1.  In well-formed data index 0 is the
longitude and index 1 the latitude, but the embedding keeps the raw index
order so that the coordinate-swap invariant is visible. -/
def Position : Type := Rat × Rat

instance : DecidableEq Position := by
  unfold Position
  infer_instance

/-- GeoJSON geometry as dispatched by `geoJSONToLayer`'s
`switch (feature.geometry.type)`: the three supported kinds, plus
`unsupported k` for any other geometry type string (e.g. `MultiPolygon`),
which falls into the switch's `default` branch.
`lineStringUndef pairs` is the in-memory shape the polyline branch of
`layerToGeoJSON` produces from a polygon layer: a geometry of type
`LineString` whose coordinates array holds `pairs` entries that are each
`[undefined, undefined]` (reading `.lng`/`.lat` off a ring array yields
`undefined`).  `undefined` is not expressible in JSON, so this shape can
never occur in a `JSON.parse`d decode input of the program. -/
inductive Geometry
  | point (coordinates : Position)
  | lineString (coordinates : List Position)
  | polygon (coordinates : List (List Position))
  | unsupported (kind : String)
  | lineStringUndef (pairs : Nat)
deriving DecidableEq

/-- The property fields the codec reads or writes on a feature
(`properties['type']`, `['style']`, `['radius']`, `['iconUrl']`,
`['iconSize']`, `['iconAnchor']`, `['name']`).  An absent key is `none`,
mirroring `undefined`.  `iconSize`/`iconAnchor` are two-element arrays in the
source, modelled as pairs. -/
structure Properties where
  type : Option String := none
  style : Option JsObj := none
  radius : Option Rat := none
  iconUrl : Option String := none
  iconSize : Option (Rat × Rat) := none
  iconAnchor : Option (Rat × Rat) := none
  name : Option String := none
deriving DecidableEq

/-- A GeoJSON Feature.  `properties` and `geometry` may each be `null`
(the source guards `feature.properties || {}` and `!feature.geometry`). -/
structure Feature where
  properties : Option Properties
  geometry : Option Geometry
deriving DecidableEq

/-- A GeoJSON FeatureCollection (its `features` array). -/
structure FeatureCollection where
  features : List Feature
deriving DecidableEq

/-- Options of an `L.icon` as built by `geoJSONToLayer`'s marker branch:
all four fields are always set there. -/
structure IconOptions where
  iconUrl : String
  iconSize : Rat × Rat
  iconAnchor : Rat × Rat
  className : String
deriving DecidableEq

/-- The Leaflet layers this program constructs and inspects.
`marker` carries the explicitly passed `icon` option when one was passed;
`icon := none` means `L.marker(latlng)` was called with no icon option, in
which case the engine's `Marker.prototype.options.icon` — an `Icon.Default`
(see `iconDefault`) — is what `options.icon` resolves to through the
prototype chain.  `circle`, `polyline`, `polygon` carry the options object
passed at construction; `geoJSONGroup f` is the feature-group layer
returned by `L.geoJSON(f)` (used for routes), which is none of the four
vector shapes. -/
inductive Layer
  | marker (latlng : LatLng) (icon : Option IconOptions)
  | circle (latlng : LatLng) (options : JsObj)
  | polyline (latlngs : List LatLng) (options : JsObj)
  | polygon (rings : List (List LatLng)) (options : JsObj)
  | geoJSONGroup (feature : Feature)
deriving DecidableEq

/-- `layer.getRadius()` on a circle: the radius stored from the construction
options.  Circles in this program are always built with a numeric radius. -/
def getRadius (options : JsObj) : Rat :=
  match jsLookup "radius" options with
  | some (JsVal.num q) => q
  | _ => 0

/-- JavaScript `s || d` where `s` is a possibly-absent string:
`null`, `undefined` and `""` are falsy. -/
def jsStrOr (s : Option String) (d : String) : String :=
  match s with
  | some v => if v == "" then d else v
  | none => d

/-- JavaScript truthiness of a possibly-absent string. -/
def strTruthy (s : Option String) : Bool :=
  match s with
  | some v => v != ""
  | none => false

/-- The default SVG marker icon URL hard-coded in `geoJSONToLayer`. -/
def defaultIconUrl : String :=
  "data:image/svg+xml;utf8,<svg xmlns=\"http://www.w3.org/2000/svg\" viewBox=\"0 0 24 24\" fill=\"%23FEB101\"><path d=\"M12 2C8.13 2 5 5.13 5 9c0 5.25 7 13 7 13s7-7.75 7-13c0-3.87-3.13-7-7-7zm0 9.5c-1.38 0-2.5-1.12-2.5-2.5S10.62 6.5 12 6.5s2.5 1.12 2.5 2.5S13.38 11.5 12 11.5z\"/></svg>"

/-- Leaflet's `Icon.Default`, the value of `Marker.prototype.options.icon`,
reached through the prototype chain by `(layer.options as any).icon` on a
marker built with no explicit icon: `iconUrl: 'marker-icon.png'`,
`iconSize: [25, 41]`, `iconAnchor: [12, 41]`.  (`Icon.Default` sets no
`className`; the field is never read by the codec, so it is `""` here.) -/
def iconDefault : IconOptions :=
  { iconUrl := "marker-icon.png", iconSize := (25, 41), iconAnchor := (12, 41),
    className := "" }

/-- Embedding of `layerToGeoJSON` (geojson.utils.ts lines 9-72).
The `instanceof` chain tests `L.Marker`, `L.Circle`, `L.Polyline`,
`L.Polygon` in that order.  Because `L.Polygon` extends `L.Polyline`, a
polygon layer is captured by the `instanceof L.Polyline` branch (line 41)
and the source's polygon branch (lines 54-69) is unreachable: the polygon's
`getLatLngs()` returns ring ARRAYS, so `latlng.lng`/`latlng.lat` read off
each ring are `undefined`, and the emitted geometry is a `LineString` of
`rings.length` pairs `[undefined, undefined]` tagged `polyline`
(`Geometry.lineStringUndef`).  The feature-group layer produced by
`L.geoJSON` matches no branch and falls through to `return null`.
Marker branch: `options.icon` always resolves (explicit icon or the
prototype's `Icon.Default`), so the effective icon is `icon.getD
iconDefault`; `iconUrl || null` yields `null` only for an empty-string URL;
`iconSize`/`iconAnchor` are arrays, hence truthy. -/
def layerToGeoJSON : Layer → Option Feature
  | Layer.marker latlng icon =>
    let io := icon.getD iconDefault
    some
      { properties := some
          { type := some "marker",
            iconUrl := if io.iconUrl == "" then none else some io.iconUrl,
            iconSize := some io.iconSize,
            iconAnchor := some io.iconAnchor },
        geometry := some (Geometry.point (latlng.lng, latlng.lat)) }
  | Layer.circle latlng options =>
    some
      { properties := some
          { type := some "circle",
            radius := some (getRadius options),
            style := some options },
        geometry := some (Geometry.point (latlng.lng, latlng.lat)) }
  | Layer.polyline latlngs options =>
    some
      { properties := some { type := some "polyline", style := some options },
        geometry := some
          (Geometry.lineString (latlngs.map (fun ll => (ll.lng, ll.lat)))) }
  | Layer.polygon rings options =>
    some
      { properties := some { type := some "polyline", style := some options },
        geometry := some (Geometry.lineStringUndef rings.length) }
  | Layer.geoJSONGroup _ => none

/-- Embedding of `geoJSONToLayer` (geojson.utils.ts lines 79-118).
Takes an `Option Feature` to capture the `!feature` null check.
`L.latLng(coords[1], coords[0])` reads index 1 as latitude and index 0 as
longitude.  The circle guard is `properties['type'] === 'circle' &&
properties['radius']`: a missing or zero radius is falsy and falls through to
the default `L.marker(latlng)`.  The circle options are the spread
`{ radius: properties['radius'], ...style }`.  The `lineStringUndef` shape
cannot occur in a decode input of the program (JSON cannot encode
`undefined`, so `JSON.parse` never produces it, and stored projects come
from JSON data); its arm exists only to totalize the model. -/
def geoJSONToLayer : Option Feature → Option Layer
  | none => none
  | some f =>
    match f.geometry with
    | none => none
    | some g =>
      let properties := f.properties.getD {}
      let style := properties.style.getD []
      match g with
      | Geometry.point c =>
        let latlng : LatLng := { lat := c.2, lng := c.1 }
        if properties.type == some "marker" then
          some (Layer.marker latlng (some
            { iconUrl := jsStrOr properties.iconUrl defaultIconUrl,
              iconSize := properties.iconSize.getD (25, 41),
              iconAnchor := properties.iconAnchor.getD (12, 41),
              className :=
                if strTruthy properties.iconUrl then "" else "custom-marker-icon" }))
        else
          match properties.radius with
          | some r =>
            if properties.type == some "circle" && r != 0 then
              some (Layer.circle latlng (("radius", JsVal.num r) :: style))
            else
              some (Layer.marker latlng none)
          | none => some (Layer.marker latlng none)
      | Geometry.lineString cs =>
        some (Layer.polyline (cs.map (fun c => { lat := c.2, lng := c.1 })) style)
      | Geometry.polygon rs =>
        some (Layer.polygon
          (rs.map (fun ring => ring.map (fun c => { lat := c.2, lng := c.1 })))
          style)
      | Geometry.unsupported _ => none
      | Geometry.lineStringUndef _ => none

/-- Record-to-record round trip through the codec:
decode to a layer, re-encode to a feature. -/
def roundTrip (f : Feature) : Option Feature :=
  (geoJSONToLayer (some f)).bind layerToGeoJSON

/-- The geometry of a possibly-absent feature. -/
def featGeometry (f : Option Feature) : Option Geometry :=
  f.bind Feature.geometry

/-- The subtype tag of a possibly-absent feature. -/
def featType (f : Option Feature) : Option String :=
  (f.bind Feature.properties).bind Properties.type

/-! ## Map component state (`src/app/map/map.ts`) -/

/-- A project as held by `ProjectService` (`MapProject` in
project.service.ts; the Firestore timestamps are irrelevant here and
omitted). -/
structure MapProject where
  id : String
  name : String
  geojson : FeatureCollection
  ownerId : String
deriving DecidableEq

/-- The closure state of one `clickHandler` registered by `drawRoute`:
its local `waypoints` and `tempMarkers` arrays (temp markers are identified
by the clicked coordinate at which they were placed). -/
structure HandlerState where
  waypoints : List LatLng
  markers : List LatLng
deriving DecidableEq

/-!
Rational constants for the decimal literals of the source, written as
explicit `Rat` values so that concrete states evaluate under `decide`
(Mathlib's `OfScientific` for `Rat` does not reduce definitionally).
-/

/-- 51.505 (default map centre latitude). -/
def r51x505 : Rat := ⟨10301, 200, by decide, by decide⟩

/-- -0.09 (default map centre longitude). -/
def rm0x09 : Rat := ⟨-9, 100, by decide, by decide⟩

/-- 0.7 (route line opacity). -/
def r0x7 : Rat := ⟨7, 10, by decide, by decide⟩

/-- 51.50 (route scenario P1 latitude). -/
def r51x50 : Rat := ⟨103, 2, by decide, by decide⟩

/-- -0.10 (route scenario P1 longitude). -/
def rm0x10 : Rat := ⟨-1, 10, by decide, by decide⟩

/-- 51.51 (route scenario P2 latitude). -/
def r51x51 : Rat := ⟨5151, 100, by decide, by decide⟩

/-- -0.08 (route scenario P2 longitude). -/
def rm0x08 : Rat := ⟨-2, 25, by decide, by decide⟩

/-- 51.52 (an auxiliary click latitude). -/
def r51x52 : Rat := ⟨1288, 25, by decide, by decide⟩

/-- -0.11 (an auxiliary click longitude). -/
def rm0x11 : Rat := ⟨-11, 100, by decide, by decide⟩

/-- The map viewport: either set by `setView(center, zoom)` or fitted to the
bounds of a set of points by `fitBounds`. -/
inductive Viewport
  | view (center : LatLng) (zoom : Nat)
  | fitted (bounds : List LatLng)
deriving DecidableEq

/-- The default view of the map (`initializeMap` / the `setView` fallback in
`subscribeToActiveProject`): London at zoom 13. -/
def defaultView : Viewport :=
  Viewport.view { lat := r51x505, lng := rm0x09 } 13

/-- The observable state of the `MapComponent`:
- `drawnItems`: the Layer Registry (`L.FeatureGroup` of drawn layers);
- `currentProjectGeoJSON`: the component's cached collection;
- `routingControl`: the waypoints of the routing control when present;
- `isDrawingRoute`: the route-mode flag;
- `handlers`: the `click` listeners currently attached to the map by
  `drawRoute`, in attach order;
- `tempMarkersOnMap`: the temporary waypoint markers currently on the map;
- `savedCollections`: the collections pushed to
  `projectService.updateActiveProjectGeoJSON`, in call order;
- `view`: the viewport. -/
structure MapState where
  drawnItems : List Layer
  currentProjectGeoJSON : FeatureCollection
  routingControl : Option (List LatLng)
  isDrawingRoute : Bool
  handlers : List HandlerState
  tempMarkersOnMap : List LatLng
  savedCollections : List FeatureCollection
  view : Viewport
deriving DecidableEq

/-- The map component's state right after `initializeMap` and
`setupDrawingControls`. -/
def initState : MapState :=
  { drawnItems := []
    currentProjectGeoJSON := { features := [] }
    routingControl := none
    isDrawingRoute := false
    handlers := []
    tempMarkersOnMap := []
    savedCollections := []
    view := defaultView }

/-- Embedding of `clearMapLayers` (map.ts lines 202-208): clear the drawn
items and remove any routing control. -/
def clearMapLayers (st : MapState) : MapState :=
  { st with drawnItems := [], routingControl := none }

/-- The result of `JSON.parse` on an imported text, as consumed by
`importGeoJSON`/`loadGeoJSONToMap`: the parsed value is `null`, or an object
with or without a `features` array. -/
structure ParsedDoc where
  features : Option (List Feature)
deriving DecidableEq

/-- Outcome of `JSON.parse(text)`: a thrown `SyntaxError`, or a parsed
document (`none` models the JSON text `null`). -/
inductive ParseResult
  | parseError
  | parsed (doc : Option ParsedDoc)
deriving DecidableEq

/-- Embedding of `loadGeoJSONToMap` (map.ts lines 214-229): return unchanged
when the value or its `features` member is absent; otherwise convert each
feature, adding the layer when the conversion succeeds and only logging a
warning (no state change) when it returns null. -/
def loadGeoJSONToMap (st : MapState) (geojson : Option ParsedDoc) : MapState :=
  match geojson with
  | none => st
  | some doc =>
    match doc.features with
    | none => st
    | some fs =>
      { st with drawnItems :=
          st.drawnItems ++ fs.filterMap (fun f => geoJSONToLayer (some f)) }

/-- Embedding of `updateGeoJSON` (map.ts lines 235-248): re-encode every
layer of the registry (layers that encode to null are skipped), replace the
cached collection, and push the full collection to
`projectService.updateActiveProjectGeoJSON`. -/
def updateGeoJSON (st : MapState) : MapState :=
  let fc : FeatureCollection :=
    { features := st.drawnItems.filterMap layerToGeoJSON }
  { st with currentProjectGeoJSON := fc
            savedCollections := st.savedCollections ++ [fc] }

/-- The points a layer contributes to the drawn items' bounds
(`drawnItems.getBounds()`); the bounds are valid exactly when at least one
point contributes.  A circle's bounds are centred on its centre (the radius
padding does not affect validity); the `L.geoJSON` group's bounds come from
its wrapped geometry. -/
def layerPoints : Layer → List LatLng
  | Layer.marker latlng _ => [latlng]
  | Layer.circle latlng _ => [latlng]
  | Layer.polyline latlngs _ => latlngs
  | Layer.polygon rings _ => rings.flatten
  | Layer.geoJSONGroup f =>
    match f.geometry with
    | some (Geometry.point c) => [{ lat := c.2, lng := c.1 }]
    | some (Geometry.lineString cs) => cs.map (fun c => { lat := c.2, lng := c.1 })
    | some (Geometry.polygon rs) =>
      (rs.map (fun ring => ring.map (fun c => { lat := c.2, lng := c.1 }))).flatten
    | _ => []

/-- The bounds contribution of the whole registry;
`getBounds().isValid()` is `boundsOf layers ≠ []`. -/
def boundsOf (layers : List Layer) : List LatLng :=
  (layers.map layerPoints).flatten

/-- Embedding of the `activeProject$` subscription body
(`subscribeToActiveProject`, map.ts lines 173-197): clear the map layers
first; with a project, deep-copy its collection (the copy is the identity in
this pure model), load it, then fit the viewport to the drawn items' bounds
when valid, else reset to the default view; with `null`, reset the cached
collection to an empty one. -/
def onActiveProject (st : MapState) (project : Option MapProject) : MapState :=
  let st1 := clearMapLayers st
  match project with
  | some p =>
    let st2 := { st1 with currentProjectGeoJSON := p.geojson }
    let st3 := loadGeoJSONToMap st2 (some { features := some p.geojson.features })
    if boundsOf st3.drawnItems ≠ [] then
      { st3 with view := Viewport.fitted (boundsOf st3.drawnItems) }
    else
      { st3 with view := defaultView }
  | none => { st1 with currentProjectGeoJSON := { features := [] } }

/-- Embedding of the `reader.onload` body of `importGeoJSON`
(map.ts lines 391-408): `JSON.parse` throws → the catch block shows a
snackbar and changes nothing; otherwise clear the map layers, load the
parsed value, and save. -/
def importParsed (st : MapState) : ParseResult → MapState
  | ParseResult.parseError => st
  | ParseResult.parsed doc =>
    updateGeoJSON (loadGeoJSONToMap (clearMapLayers st) doc)

/-! ## Route drawing (`drawRoute`, `createRoutingControl`, map.ts 254-378) -/

/-- Embedding of `createRoutingControl` (map.ts lines 302-333):
remove any existing routing control, then install a new one for the given
waypoints.  The control's `routesfound`/`routingerror` handlers are the
transitions `onRoutesFound`/`onRoutingError` below. -/
def createRoutingControl (st : MapState) (waypoints : List LatLng) : MapState :=
  { st with routingControl := some waypoints }

/-- `map.removeLayer(marker)` for each marker of a list: each call removes
that one marker from the map. -/
def removeEach (onMap : List LatLng) (toRemove : List LatLng) : List LatLng :=
  toRemove.foldl (fun acc m => acc.erase m) onMap

/-- One `clickHandler` invocation (the closure in `drawRoute`, map.ts lines
271-293) for a click at `p`: push the waypoint, add a temporary marker; on
the second waypoint, detach this handler (`map.off('click', clickHandler)`),
clear `isDrawingRoute`, create the routing control, and remove this
handler's temporary markers.  Returns the surviving handler state
(`none` when the handler detached itself). -/
def fireHandler (st : MapState) (h : HandlerState) (p : LatLng) :
    MapState × Option HandlerState :=
  let waypoints := h.waypoints ++ [p]
  let markers := h.markers ++ [p]
  let st1 := { st with tempMarkersOnMap := st.tempMarkersOnMap ++ [p] }
  if waypoints.length == 2 then
    let st2 := { st1 with isDrawingRoute := false }
    let st3 := createRoutingControl st2 waypoints
    let st4 := { st3 with tempMarkersOnMap := removeEach st3.tempMarkersOnMap markers }
    (st4, none)
  else
    (st1, some { waypoints := waypoints, markers := markers })

/-- Fire every attached click handler in attach order, collecting the
handlers that stay attached. -/
def fireHandlers (st : MapState) (hs : List HandlerState) (p : LatLng) :
    MapState × List HandlerState :=
  match hs with
  | [] => (st, [])
  | h :: rest =>
    let r1 := fireHandler st h p
    let r2 := fireHandlers r1.1 rest p
    (r2.1, r1.2.toList ++ r2.2)

/-- A click on the map at `p`: every attached `clickHandler` fires. -/
def mapClick (st : MapState) (p : LatLng) : MapState :=
  let r := fireHandlers { st with handlers := [] } st.handlers p
  { r.1 with handlers := r.2 }

/-- Embedding of `drawRoute` (map.ts lines 254-296): set the route flag,
remove any existing routing control, and attach a fresh `clickHandler` with
empty `waypoints`/`tempMarkers` arrays.  Nothing detaches a previously
attached handler or removes its temporary markers. -/
def drawRoute (st : MapState) : MapState :=
  { st with isDrawingRoute := true
            routingControl := none
            handlers := st.handlers ++ [{ waypoints := [], markers := [] }] }

/-- The style object stored on a generated route feature
(map.ts line 345). -/
def routeStyle : JsObj :=
  [("color", JsVal.str "#660BC2"), ("weight", JsVal.num 5),
   ("opacity", JsVal.num r0x7)]

/-- The GeoJSON feature built in the `routesfound` handler
(map.ts lines 340-354) from the returned path: a LineString tagged
`route`, coordinates converted from LatLng to `[lng, lat]`. -/
def routeFeature (coords : List LatLng) : Feature :=
  { properties := some
      { type := some "route"
        name := some "Generated Route"
        style := some routeStyle }
    geometry := some
      (Geometry.lineString (coords.map (fun ll => (ll.lng, ll.lat)))) }

/-- Embedding of the `routesfound` handler (map.ts lines 336-362): with at
least one route, build the route feature, wrap it with `L.geoJSON` (a
feature-group layer), add that layer to the drawn items, and save. -/
def onRoutesFound (st : MapState) (routes : List (List LatLng)) : MapState :=
  match routes with
  | [] => st
  | coords :: _ =>
    let routeLayer := Layer.geoJSONGroup (routeFeature coords)
    updateGeoJSON { st with drawnItems := st.drawnItems ++ [routeLayer] }

/-- Embedding of the `routingerror` handler (map.ts lines 365-377):
log, notify, and remove the routing control. -/
def onRoutingError (st : MapState) : MapState :=
  { st with routingControl := none }

/-! ## Project service (`src/app/services/project.service.ts`) -/

/-- The signal state of `ProjectService` that the modelled operations touch,
plus a count of Firestore `updateDoc` calls issued by
`updateActiveProjectGeoJSON` (to observe that no retry happens). -/
structure ServiceState where
  projects : List MapProject
  activeProjectId : Option String
  error : Option String
  persistAttempts : Nat
deriving DecidableEq

/-- Outcome of the remote `updateDoc` call. -/
inductive PersistOutcome
  | success
  | failure (msg : String)
deriving DecidableEq

/-- Embedding of `selectProject` (project.service.ts lines 223-231):
set the active id only when the id occurs in the current project list,
otherwise just log a warning. -/
def selectProject (st : ServiceState) (projectId : String) : ServiceState :=
  match st.projects.find? (fun p => p.id == projectId) with
  | some _ => { st with activeProjectId := some projectId }
  | none => st

/-- Embedding of `updateActiveProjectGeoJSON` (project.service.ts lines
277-300).  No active project: warn and return normally.  No authenticated
user: throw.  Otherwise issue exactly one `updateDoc`; on rejection set the
error signal and rethrow (`Except.error`) to the caller — the function never
retries and never touches the project list or active id. -/
def updateActiveProjectGeoJSON (st : ServiceState) (user : Option String)
    (geojson : FeatureCollection) (remote : PersistOutcome) :
    ServiceState × Except String Unit :=
  match st.activeProjectId with
  | none => (st, Except.ok ())
  | some _ =>
    match user with
    | none => (st, Except.error "User must be authenticated to update projects")
    | some _ =>
      match remote with
      | PersistOutcome.success =>
        ({ st with persistAttempts := st.persistAttempts + 1 }, Except.ok ())
      | PersistOutcome.failure msg =>
        ({ st with persistAttempts := st.persistAttempts + 1,
                   error := some msg },
         Except.error msg)

/-- A full local-mutation save as `MapComponent.updateGeoJSON` performs it
(map.ts lines 235-248): re-encode the registry, then push it through
`ProjectService.updateActiveProjectGeoJSON`. -/
def saveRegistry (m : MapState) (svc : ServiceState) (user : Option String)
    (remote : PersistOutcome) :
    MapState × ServiceState × Except String Unit :=
  let m1 := updateGeoJSON m
  let r := updateActiveProjectGeoJSON svc user m1.currentProjectGeoJSON remote
  (m1, r.1, r.2)

/-! ## GeometryRecord shapes (input constructors for the theorems) -/

/-- A persisted marker record: Point geometry, subtype `marker`, optional
icon descriptor fields. -/
def markerRecord (c : Position) (u : Option String)
    (sz an : Option (Rat × Rat)) : Feature :=
  { properties := some
      { type := some "marker", iconUrl := u, iconSize := sz, iconAnchor := an }
    geometry := some (Geometry.point c) }

/-- A persisted circle record: Point geometry, subtype `circle`,
a radius and an optional style. -/
def circleRecord (c : Position) (r : Option Rat) (s : Option JsObj) : Feature :=
  { properties := some { type := some "circle", radius := r, style := s }
    geometry := some (Geometry.point c) }

/-- A persisted LineString record with an arbitrary subtype tag
(`polyline`, `route`, ...) and an optional style. -/
def lineRecord (ty : Option String) (cs : List Position)
    (s : Option JsObj) : Feature :=
  { properties := some { type := ty, style := s }
    geometry := some (Geometry.lineString cs) }

/-- A persisted Polygon record with an arbitrary subtype tag and an
optional style. -/
def polyRecord (ty : Option String) (rs : List (List Position))
    (s : Option JsObj) : Feature :=
  { properties := some { type := ty, style := s }
    geometry := some (Geometry.polygon rs) }

/-- A Point record carrying only a subtype tag (possibly absent). -/
def pointRecord (c : Position) (ty : Option String) : Feature :=
  { properties := some { type := ty }
    geometry := some (Geometry.point c) }

/-! ## Concrete scenarios -/

/-- First click of the spec's route scenario: P1 = (51.50, -0.10). -/
def routeP1 : LatLng := { lat := r51x50, lng := rm0x10 }

/-- Second click of the spec's route scenario: P2 = (51.51, -0.08). -/
def routeP2 : LatLng := { lat := r51x51, lng := rm0x08 }

/-- Midpoint returned by the stub routing provider. -/
def routeMid : LatLng := { lat := r51x505, lng := rm0x09 }

/-- The stub provider's returned path [[P1], [mid], [P2]]. -/
def routeStubPath : List LatLng := [routeP1, routeMid, routeP2]

/-- The route scenario of the spec, run from a fresh map: activate route
mode, click P1, click P2, and let the provider resolve the stub path. -/
def routeScenarioFinal : MapState :=
  onRoutesFound (mapClick (mapClick (drawRoute initState) routeP1) routeP2)
    [routeStubPath]

/-- A click position used when a route session is restarted mid-collection. -/
def pendingClick : LatLng := { lat := r51x52, lng := rm0x11 }

/-- Restarting route mode while a session is pending: activate route mode,
click once (one waypoint collected), then activate route mode again. -/
def restartedRouteState : MapState :=
  drawRoute (mapClick (drawRoute initState) pendingClick)

/-- A one-marker registry, used to observe what an import attempt does to an
existing registry. -/
def oneMarkerState : MapState :=
  { initState with drawnItems := [Layer.marker { lat := r51x50, lng := rm0x10 } none] }

/-- A parsed import document with no `features` member (for example the JSON
text of a plain object). -/
def noFeaturesDoc : ParseResult := ParseResult.parsed (some { features := none })

/-- Discriminator: is this conversion result a circle layer? -/
def isCircleLayer : Option Layer → Bool
  | some (Layer.circle _ _) => true
  | _ => false

/-- A project with an empty geometry collection. -/
def projEmpty : MapProject :=
  { id := "p1", name := "Empty", geojson := { features := [] }, ownerId := "u1" }

/-- A service state with one project, which is active. -/
def svcOne : ServiceState :=
  { projects := [projEmpty], activeProjectId := some "p1", error := none,
    persistAttempts := 0 }

/-! ## Theorems -/

/-- Prepending a binding for `key` to an object without `key` makes the
lookup return that binding (the spread `{ key: v, ...obj }` where `obj` has
no own `key`). -/
theorem jsLookup_cons_of_none (key : String) (v : JsVal) (obj : JsObj)
    (h : jsLookup key obj = none) : jsLookup key ((key, v) :: obj) = some v := by
  unfold jsLookup at h ⊢
  rw [Option.map_eq_none'] at h
  rw [List.reverse_cons, List.find?_append, h]
  simp

/-- C1 (amended): geoJSONToLayer then layerToGeoJSON reproduces geometry
type and coordinates exactly for Point and LineString records, and:
a marker with a custom (non-empty) icon URL and explicit size/anchor
round-trips all icon fields; a marker with absent icon fields materializes
the codec's built-in default icon URL/size/anchor; a circle with nonzero
radius and a style without its own radius entry round-trips its radius,
with the radius entry prepended to the preserved style; a LineString with
ANY subtype tag (including `route`) normalizes to subtype `polyline` with
style preserved; a Point with an unrecognized or absent subtype normalizes
to subtype `marker` carrying the engine's `Icon.Default` descriptor
(marker-icon.png, [25,41], [12,41]); and a Polygon record does NOT
round-trip at all — it re-encodes through the polyline branch (L.Polygon
extends L.Polyline) as a `polyline`-tagged LineString with one
[undefined, undefined] pair per ring, preserving only the style. -/
theorem c1_roundtrip_amended :
    (∀ (c : Position) (u : String) (sz an : Rat × Rat), u ≠ "" →
      roundTrip (markerRecord c (some u) (some sz) (some an)) =
        some (markerRecord c (some u) (some sz) (some an))) ∧
    (∀ c : Position,
      roundTrip (markerRecord c none none none) =
        some (markerRecord c (some defaultIconUrl) (some (25, 41)) (some (12, 41)))) ∧
    (∀ (c : Position) (r : Rat) (s : JsObj), r ≠ 0 → jsLookup "radius" s = none →
      roundTrip (circleRecord c (some r) (some s)) =
        some (Feature.mk
          (some (Properties.mk (some "circle") (some (("radius", JsVal.num r) :: s))
            (some r) none none none none))
          (some (Geometry.point c)))) ∧
    (∀ (ty : Option String) (cs : List Position) (s : JsObj),
      roundTrip (lineRecord ty cs (some s)) =
        some (lineRecord (some "polyline") cs (some s))) ∧
    (∀ (ty : Option String) (rs : List (List Position)) (s : JsObj),
      roundTrip (polyRecord ty rs (some s)) =
        some (Feature.mk
          (some (Properties.mk (some "polyline") (some s) none none none none none))
          (some (Geometry.lineStringUndef rs.length)))) ∧
    (∀ (c : Position) (ty : Option String), ty ≠ some "marker" → ty ≠ some "circle" →
      roundTrip (pointRecord c ty) =
        some (markerRecord c (some "marker-icon.png") (some (25, 41))
          (some (12, 41)))) := by
  have hd : defaultIconUrl ≠ "" := by decide
  have hm : ("marker-icon.png" : String) ≠ "" := by decide
  refine ⟨?_, ?_, ?_, ?_, ?_, ?_⟩
  · intro c u sz an hu
    simp [roundTrip, geoJSONToLayer, markerRecord, layerToGeoJSON, jsStrOr,
      strTruthy, hu]
  · intro c
    simp [roundTrip, geoJSONToLayer, markerRecord, layerToGeoJSON, jsStrOr,
      strTruthy, hd]
  · intro c r s hr hs
    simp [roundTrip, geoJSONToLayer, circleRecord, layerToGeoJSON, getRadius,
      jsLookup_cons_of_none _ _ _ hs, hr]
  · intro ty cs s
    simp [roundTrip, geoJSONToLayer, lineRecord, layerToGeoJSON, List.map_map,
      Function.comp_def]
  · intro ty rs s
    simp [roundTrip, geoJSONToLayer, polyRecord, layerToGeoJSON]
  · intro c ty h1 h2
    simp [roundTrip, geoJSONToLayer, pointRecord, markerRecord, layerToGeoJSON,
      iconDefault, h1, h2, hm]

/-- C1 witness: the amended round-trip law evaluated at concrete records of
each kind, hypotheses discharged by computation. -/
theorem c1_roundtrip_witness :
    (roundTrip (markerRecord (1, 2) (some "https://example.com/pin.png")
        (some (3, 4)) (some (5, 6))) =
      some (markerRecord (1, 2) (some "https://example.com/pin.png")
        (some (3, 4)) (some (5, 6)))) ∧
    (roundTrip (circleRecord (1, 2) (some 10) (some [("color", JsVal.str "#FEB101")])) =
      some (Feature.mk
        (some (Properties.mk (some "circle")
          (some [("radius", JsVal.num 10), ("color", JsVal.str "#FEB101")])
          (some 10) none none none none))
        (some (Geometry.point (1, 2))))) ∧
    (roundTrip (lineRecord (some "route") [(1, 2), (3, 4)] (some routeStyle)) =
      some (lineRecord (some "polyline") [(1, 2), (3, 4)] (some routeStyle))) ∧
    (roundTrip (pointRecord (1, 2) (some "mystery")) =
      some (markerRecord (1, 2) (some "marker-icon.png") (some (25, 41))
        (some (12, 41)))) :=
  ⟨c1_roundtrip_amended.1 (1, 2) "https://example.com/pin.png" (3, 4) (5, 6)
      (by decide),
   c1_roundtrip_amended.2.2.1 (1, 2) 10 [("color", JsVal.str "#FEB101")]
      (by decide) (by decide),
   c1_roundtrip_amended.2.2.2.1 (some "route") [(1, 2), (3, 4)] routeStyle,
   c1_roundtrip_amended.2.2.2.2.2 (1, 2) (some "mystery") (by decide) (by decide)⟩

/-- C1 counterexample: a LineString record tagged `route` (exactly the
feature the route builder generates) does NOT round-trip its subtype — it
comes back tagged `polyline`, so the claim as stated fails on this record. -/
theorem c1_route_subtype_counterexample :
    featType (some (routeFeature routeStubPath)) = some "route" ∧
    featType (roundTrip (routeFeature routeStubPath)) = some "polyline" ∧
    roundTrip (routeFeature routeStubPath) ≠ some (routeFeature routeStubPath) := by
  exact ⟨by decide, by decide, by decide⟩

/-- C2 (amended): `geoJSONToLayer` dispatches on (geometry.type,
properties.type): Point + `marker` yields a marker with the stored icon
descriptor (per-field, the built-in default URL/size/anchor filling each
absent field); Point + `circle` with a nonzero radius (and a style without
its own radius entry) yields a circle carrying that radius and the
preserved style; Point with an absent or unknown subtype yields a plain
default marker (fallback, not an error); any geometry kind other than
Point/LineString/Polygon yields null. -/
theorem c2_dispatch_amended :
    (∀ (c : Position) (u : String) (sz an : Rat × Rat), u ≠ "" →
      geoJSONToLayer (some (markerRecord c (some u) (some sz) (some an))) =
        some (Layer.marker { lat := c.2, lng := c.1 }
          (some { iconUrl := u, iconSize := sz, iconAnchor := an, className := "" }))) ∧
    (∀ c : Position,
      geoJSONToLayer (some (markerRecord c none none none)) =
        some (Layer.marker { lat := c.2, lng := c.1 }
          (some { iconUrl := defaultIconUrl, iconSize := (25, 41),
                  iconAnchor := (12, 41), className := "custom-marker-icon" }))) ∧
    (∀ (c : Position) (r : Rat) (s : JsObj), r ≠ 0 → jsLookup "radius" s = none →
      geoJSONToLayer (some (circleRecord c (some r) (some s))) =
        some (Layer.circle { lat := c.2, lng := c.1 } (("radius", JsVal.num r) :: s)) ∧
      getRadius (("radius", JsVal.num r) :: s) = r) ∧
    (∀ (c : Position) (ty : Option String), ty ≠ some "marker" → ty ≠ some "circle" →
      geoJSONToLayer (some (pointRecord c ty)) =
        some (Layer.marker { lat := c.2, lng := c.1 } none)) ∧
    (∀ (p : Option Properties) (k : String),
      geoJSONToLayer
        (some { properties := p, geometry := some (Geometry.unsupported k) }) = none) := by
  refine ⟨?_, ?_, ?_, ?_, fun p k => rfl⟩
  · intro c u sz an hu
    simp [geoJSONToLayer, markerRecord, jsStrOr, strTruthy, hu]
  · intro c
    simp [geoJSONToLayer, markerRecord, jsStrOr, strTruthy]
  · intro c r s hr hs
    refine ⟨?_, ?_⟩
    · simp [geoJSONToLayer, circleRecord, hr]
    · simp [getRadius, jsLookup_cons_of_none _ _ _ hs]
  · intro c ty h1 h2
    simp [geoJSONToLayer, pointRecord, h1, h2]

/-- C2 witness: the amended dispatch law evaluated at concrete features,
hypotheses discharged by computation. -/
theorem c2_dispatch_witness :
    (geoJSONToLayer (some (markerRecord (1, 2) (some "https://example.com/pin.png")
        (some (3, 4)) (some (5, 6)))) =
      some (Layer.marker { lat := 2, lng := 1 }
        (some { iconUrl := "https://example.com/pin.png", iconSize := (3, 4),
                iconAnchor := (5, 6), className := "" }))) ∧
    (geoJSONToLayer (some (circleRecord (1, 2) (some 10)
        (some [("color", JsVal.str "#FEB101")]))) =
      some (Layer.circle { lat := 2, lng := 1 }
        [("radius", JsVal.num 10), ("color", JsVal.str "#FEB101")])) ∧
    (geoJSONToLayer (some (pointRecord (1, 2) none)) =
      some (Layer.marker { lat := 2, lng := 1 } none)) :=
  ⟨c2_dispatch_amended.1 (1, 2) "https://example.com/pin.png" (3, 4) (5, 6)
      (by decide),
   (c2_dispatch_amended.2.2.1 (1, 2) 10 [("color", JsVal.str "#FEB101")]
      (by decide) (by decide)).1,
   c2_dispatch_amended.2.2.2.1 (1, 2) none (by decide) (by decide)⟩

/-- C2 counterexample: a Point feature with subtype `circle` and a radius
that is PRESENT but zero does not yield a circle — the zero radius is falsy
in the guard `properties['type'] === 'circle' && properties['radius']`, so
the feature falls through to the default marker. -/
theorem c2_zero_radius_counterexample :
    (circleRecord (1, 2) (some 0) (some [])).properties.bind Properties.radius =
      some 0 ∧
    geoJSONToLayer (some (circleRecord (1, 2) (some 0) (some []))) =
      some (Layer.marker { lat := 2, lng := 1 } none) ∧
    isCircleLayer (geoJSONToLayer (some (circleRecord (1, 2) (some 0) (some [])))) =
      false := by
  exact ⟨by decide, by decide, by decide⟩

/-- C3 (amended): Coordinate order is swapped on every conversion in both
directions — `layerToGeoJSON` emits `[lng, lat]` pairs and `geoJSONToLayer`
reads index 1 as the latitude and index 0 as the longitude — and
decode-then-encode is the identity on every Point coordinate and every
LineString vertex (exact in this rational model).  For Polygon records,
however, the composition is NOT the identity on ring vertices: the decoded
polygon layer re-encodes through the polyline branch (L.Polygon extends
L.Polyline) into a LineString of one `[undefined, undefined]` pair per
ring, losing every vertex. -/
theorem c3_coordinate_swap_amended :
    (∀ (p : Option Properties) (c : Position),
      featGeometry (roundTrip { properties := p, geometry := some (Geometry.point c) }) =
        some (Geometry.point c)) ∧
    (∀ (p : Option Properties) (cs : List Position),
      featGeometry (roundTrip { properties := p, geometry := some (Geometry.lineString cs) }) =
        some (Geometry.lineString cs)) ∧
    (∀ (p : Option Properties) (rs : List (List Position)),
      featGeometry (roundTrip { properties := p, geometry := some (Geometry.polygon rs) }) =
        some (Geometry.lineStringUndef rs.length)) ∧
    (∀ (ll : LatLng) (icon : Option IconOptions),
      featGeometry (layerToGeoJSON (Layer.marker ll icon)) =
        some (Geometry.point (ll.lng, ll.lat))) ∧
    (∀ (ll : LatLng) (options : JsObj),
      featGeometry (layerToGeoJSON (Layer.circle ll options)) =
        some (Geometry.point (ll.lng, ll.lat))) ∧
    (∀ (lls : List LatLng) (options : JsObj),
      featGeometry (layerToGeoJSON (Layer.polyline lls options)) =
        some (Geometry.lineString (lls.map (fun ll => (ll.lng, ll.lat))))) ∧
    (∀ (p : Option Properties) (c : Position),
      (geoJSONToLayer (some { properties := p, geometry := some (Geometry.point c) })).map
          layerPoints =
        some [{ lat := c.2, lng := c.1 }]) := by
  refine ⟨?_, ?_, ?_, ?_, ?_, ?_, ?_⟩
  · intro p c
    simp only [roundTrip, geoJSONToLayer, featGeometry]
    split
    · simp [layerToGeoJSON, featGeometry]
    · split
      · split
        · simp [layerToGeoJSON, featGeometry]
        · simp [layerToGeoJSON, featGeometry]
      · simp [layerToGeoJSON, featGeometry]
  · intro p cs
    simp [roundTrip, geoJSONToLayer, featGeometry, layerToGeoJSON, List.map_map,
      Function.comp_def]
  · intro p rs
    simp [roundTrip, geoJSONToLayer, featGeometry, layerToGeoJSON]
  · intro ll icon
    simp [layerToGeoJSON, featGeometry]
  · intro ll options
    simp [layerToGeoJSON, featGeometry]
  · intro lls options
    simp [layerToGeoJSON, featGeometry]
  · intro p c
    simp only [geoJSONToLayer]
    split
    · simp [layerPoints]
    · split
      · split
        · simp [layerPoints]
        · simp [layerPoints]
      · simp [layerPoints]

/-- C3 counterexample: a Polygon record's decode-then-encode composition is
not the identity on its ring vertices — the re-encoded feature is a
`polyline`-tagged LineString holding one `[undefined, undefined]` pair for
the ring, and none of the three original vertices survives. -/
theorem c3_polygon_roundtrip_counterexample :
    featGeometry (roundTrip
        (polyRecord (some "polygon") [[(1, 2), (3, 4), (5, 6)]] (some []))) =
      some (Geometry.lineStringUndef 1) ∧
    featGeometry (roundTrip
        (polyRecord (some "polygon") [[(1, 2), (3, 4), (5, 6)]] (some []))) ≠
      some (Geometry.polygon [[(1, 2), (3, 4), (5, 6)]]) ∧
    featType (roundTrip
        (polyRecord (some "polygon") [[(1, 2), (3, 4), (5, 6)]] (some []))) =
      some "polyline" := by
  exact ⟨by decide, by decide, by decide⟩

/-- C10: Both codec directions are total and never throw: `geoJSONToLayer`
returns null exactly for a null feature, a feature with null geometry, or a
geometry kind other than Point/LineString/Polygon, and returns a layer for
every other input; `layerToGeoJSON` returns null exactly for a layer that is
not one of the four drawable variants (here: the `L.geoJSON` feature-group
layer), and a feature for each of the four drawable variants. -/
theorem c10_codec_totality :
    (geoJSONToLayer none = none) ∧
    (∀ p : Option Properties,
      geoJSONToLayer (some { properties := p, geometry := none }) = none) ∧
    (∀ (p : Option Properties) (k : String),
      geoJSONToLayer
        (some { properties := p, geometry := some (Geometry.unsupported k) }) = none) ∧
    (∀ (p : Option Properties) (c : Position),
      (geoJSONToLayer
        (some { properties := p, geometry := some (Geometry.point c) })).isSome) ∧
    (∀ (p : Option Properties) (cs : List Position),
      (geoJSONToLayer
        (some { properties := p, geometry := some (Geometry.lineString cs) })).isSome) ∧
    (∀ (p : Option Properties) (rs : List (List Position)),
      (geoJSONToLayer
        (some { properties := p, geometry := some (Geometry.polygon rs) })).isSome) ∧
    (∀ f : Feature, layerToGeoJSON (Layer.geoJSONGroup f) = none) ∧
    (∀ (ll : LatLng) (icon : Option IconOptions),
      (layerToGeoJSON (Layer.marker ll icon)).isSome) ∧
    (∀ (ll : LatLng) (options : JsObj),
      (layerToGeoJSON (Layer.circle ll options)).isSome) ∧
    (∀ (lls : List LatLng) (options : JsObj),
      (layerToGeoJSON (Layer.polyline lls options)).isSome) ∧
    (∀ (rs : List (List LatLng)) (options : JsObj),
      (layerToGeoJSON (Layer.polygon rs options)).isSome) := by
  refine ⟨rfl, fun p => rfl, fun p k => rfl, ?_, fun p cs => rfl, fun p rs => rfl,
    fun f => rfl, fun ll icon => rfl, fun ll options => rfl,
    fun lls options => rfl, fun rs options => rfl⟩
  intro p c
  simp only [geoJSONToLayer]
  split
  · simp
  · split
    · split
      · simp
      · simp
    · simp

/-- C4 (amended): an import whose text fails `JSON.parse` leaves the whole
map state, hence the Layer Registry, exactly as it was; but an import that
parses to `null` or to a value with no `features` member does NOT fail with
an import error: the registry is cleared first and an empty collection is
then saved. -/
theorem c4_import_amended :
    (∀ st : MapState, importParsed st ParseResult.parseError = st) ∧
    (∀ st : MapState,
      (importParsed st (ParseResult.parsed none)).drawnItems = [] ∧
      (importParsed st (ParseResult.parsed none)).savedCollections =
        st.savedCollections ++ [{ features := [] }]) ∧
    (∀ st : MapState,
      (importParsed st noFeaturesDoc).drawnItems = [] ∧
      (importParsed st noFeaturesDoc).savedCollections =
        st.savedCollections ++ [{ features := [] }]) := by
  refine ⟨fun st => rfl, fun st => ⟨?_, ?_⟩, fun st => ⟨?_, ?_⟩⟩ <;>
    simp [importParsed, noFeaturesDoc, loadGeoJSONToMap, clearMapLayers,
      updateGeoJSON]

/-- C4 counterexample: importing a text that parses but has no `features`
member into a registry holding one marker does NOT leave the registry's
object count unchanged — the registry is wiped (1 layer before, 0 after)
and an empty collection is saved. -/
theorem c4_missing_features_counterexample :
    oneMarkerState.drawnItems.length = 1 ∧
    (importParsed oneMarkerState noFeaturesDoc).drawnItems.length = 0 ∧
    (importParsed oneMarkerState noFeaturesDoc).savedCollections =
      [{ features := [] }] := by
  exact ⟨by decide, by decide, by decide⟩

/-- C5 (code bug): the spec's route scenario — activate route mode, click
P1 = (51.50, -0.10) and P2 = (51.51, -0.08), and let the provider resolve
the stub path — adds exactly one layer, but it is the `L.geoJSON`
feature-group wrapping the `route`-tagged feature rather than a plain
polyline layer; the temporary markers are gone, the handler is detached and
the builder idle, and the one triggered save serializes the registry to an
EMPTY collection: the route feature is absent from the saved collection
because `layerToGeoJSON` has no branch for group layers and skips them. -/
theorem c5_route_not_persisted :
    routeScenarioFinal.drawnItems =
      [Layer.geoJSONGroup (routeFeature routeStubPath)] ∧
    featType (some (routeFeature routeStubPath)) = some "route" ∧
    routeScenarioFinal.tempMarkersOnMap = [] ∧
    routeScenarioFinal.handlers = [] ∧
    routeScenarioFinal.isDrawingRoute = false ∧
    routeScenarioFinal.savedCollections = [{ features := [] }] ∧
    layerToGeoJSON (Layer.geoJSONGroup (routeFeature routeStubPath)) = none := by
  exact ⟨by decide, by decide, by decide, by decide, by decide, by decide, rfl⟩

/-- C6 (amended): starting a route session removes any previously added
routing visualization (the routing control) and leaves the registry
untouched, but it does NOT tear down a pending session: the previously
attached click listener stays attached (listeners accumulate) and the
pending session's temporary markers stay on the map; consequently, after a
restart both listeners receive the next click. -/
theorem c6_restart_amended :
    ∀ st : MapState,
      (drawRoute st).routingControl = none ∧
      (drawRoute st).handlers =
        st.handlers ++ [{ waypoints := [], markers := [] }] ∧
      (drawRoute st).tempMarkersOnMap = st.tempMarkersOnMap ∧
      (drawRoute st).drawnItems = st.drawnItems ∧
      (st.handlers = [] → ∀ q : LatLng,
        (mapClick (drawRoute (drawRoute st)) q).handlers =
          [{ waypoints := [q], markers := [q] },
           { waypoints := [q], markers := [q] }]) := by
  intro st
  refine ⟨rfl, rfl, rfl, rfl, ?_⟩
  intro h q
  simp [drawRoute, mapClick, fireHandlers, fireHandler, h]

/-- C6 witness: after two activations from a fresh map, both accumulated
listeners receive the next click. -/
theorem c6_restart_witness :
    (mapClick (drawRoute (drawRoute initState)) pendingClick).handlers =
      [{ waypoints := [pendingClick], markers := [pendingClick] },
       { waypoints := [pendingClick], markers := [pendingClick] }] :=
  (c6_restart_amended initState).2.2.2.2 rfl pendingClick

/-- C6 counterexample: activating route mode, clicking once, then
activating route mode again leaves TWO click listeners attached
simultaneously and the pending session's temporary marker still on the map
— the pending session is not torn down. -/
theorem c6_duplicate_listeners_counterexample :
    restartedRouteState.handlers.length = 2 ∧
    restartedRouteState.handlers =
      [{ waypoints := [pendingClick], markers := [pendingClick] },
       { waypoints := [], markers := [] }] ∧
    restartedRouteState.tempMarkersOnMap = [pendingClick] := by
  exact ⟨by decide, by decide, by decide⟩

/-- C7: on every active-project change, the registry is rebuilt from
scratch: afterwards it holds exactly the decoded records of the new
project (records the codec cannot map are skipped, not fatal), an empty
collection leaves it empty, and the viewport is fitted to the registry's
computed bounds, or reset to the default view when the bounds are empty
(in particular whenever the registry is empty); a null project clears the
registry and resets the cached collection. -/
theorem c7_project_change :
    (∀ (st : MapState) (p : MapProject),
      (onActiveProject st (some p)).drawnItems =
        p.geojson.features.filterMap (fun f => geoJSONToLayer (some f)) ∧
      (onActiveProject st (some p)).view =
        (if boundsOf
            (p.geojson.features.filterMap (fun f => geoJSONToLayer (some f))) = []
         then defaultView
         else Viewport.fitted (boundsOf
            (p.geojson.features.filterMap (fun f => geoJSONToLayer (some f))))) ∧
      (p.geojson.features = [] → (onActiveProject st (some p)).drawnItems = []) ∧
      ((onActiveProject st (some p)).drawnItems = [] →
        (onActiveProject st (some p)).view = defaultView)) ∧
    (∀ st : MapState,
      (onActiveProject st none).drawnItems = [] ∧
      (onActiveProject st none).currentProjectGeoJSON = { features := [] }) := by
  refine ⟨?_, fun st => ⟨rfl, rfl⟩⟩
  intro st p
  have hdrawn : (onActiveProject st (some p)).drawnItems =
      p.geojson.features.filterMap (fun f => geoJSONToLayer (some f)) := by
    simp only [onActiveProject, clearMapLayers, loadGeoJSONToMap]
    split <;> simp
  by_cases h : boundsOf
      (p.geojson.features.filterMap (fun f => geoJSONToLayer (some f))) = []
  · have hview : (onActiveProject st (some p)).view = defaultView := by
      simp [onActiveProject, clearMapLayers, loadGeoJSONToMap, h]
    refine ⟨hdrawn, by rw [hview, if_pos h], ?_, fun _ => hview⟩
    intro hf
    rw [hdrawn, hf]
    rfl
  · have hview : (onActiveProject st (some p)).view =
        Viewport.fitted (boundsOf
          (p.geojson.features.filterMap (fun f => geoJSONToLayer (some f)))) := by
      simp [onActiveProject, clearMapLayers, loadGeoJSONToMap, h]
    refine ⟨hdrawn, by rw [hview, if_neg h], ?_, ?_⟩
    · intro hf
      rw [hdrawn, hf]
      rfl
    · intro hempty
      rw [hdrawn] at hempty
      rw [hempty] at h
      exact absurd rfl h

/-- C7 witness: loading a project with an empty geometry collection leaves
the registry empty and resets the viewport to the default view. -/
theorem c7_project_change_witness :
    (onActiveProject initState (some projEmpty)).drawnItems = [] ∧
    (onActiveProject initState (some projEmpty)).view = defaultView :=
  have h1 := (c7_project_change.1 initState projEmpty).2.2.1 rfl
  ⟨h1, (c7_project_change.1 initState projEmpty).2.2.2 h1⟩

/-- C8: when the persistence call of a local-mutation save rejects, the
error is propagated to the caller (the mutating operation returns the
rejection), exactly one persistence attempt was made (no retry), and the
Layer Registry is not rolled back: the registry after the failed save
equals the registry immediately before; the service's project list and
active id are also untouched, only its error signal is set. -/
theorem c8_save_failure :
    ∀ (m : MapState) (svc : ServiceState) (u msg pid : String),
      svc.activeProjectId = some pid →
      (saveRegistry m svc (some u) (PersistOutcome.failure msg)).1.drawnItems =
          m.drawnItems ∧
      (saveRegistry m svc (some u) (PersistOutcome.failure msg)).2.2 =
          Except.error msg ∧
      (saveRegistry m svc (some u) (PersistOutcome.failure msg)).2.1.persistAttempts =
          svc.persistAttempts + 1 ∧
      (saveRegistry m svc (some u) (PersistOutcome.failure msg)).2.1.projects =
          svc.projects ∧
      (saveRegistry m svc (some u) (PersistOutcome.failure msg)).2.1.activeProjectId =
          svc.activeProjectId ∧
      (saveRegistry m svc (some u) (PersistOutcome.failure msg)).2.1.error =
          some msg := by
  intro m svc u msg pid h
  simp [saveRegistry, updateGeoJSON, updateActiveProjectGeoJSON, h]

/-- C8 witness: a failed save from a concrete state leaves the registry as
it was, returns the rejection, and counts exactly one attempt. -/
theorem c8_save_failure_witness :
    (saveRegistry oneMarkerState svcOne (some "u1")
        (PersistOutcome.failure "boom")).1.drawnItems =
      oneMarkerState.drawnItems ∧
    (saveRegistry oneMarkerState svcOne (some "u1")
        (PersistOutcome.failure "boom")).2.2 = Except.error "boom" ∧
    (saveRegistry oneMarkerState svcOne (some "u1")
        (PersistOutcome.failure "boom")).2.1.persistAttempts = 1 :=
  have h := c8_save_failure oneMarkerState svcOne "u1" "boom" "p1" rfl
  ⟨h.1, h.2.1, h.2.2.1⟩

/-- C9: selecting a project id that does not occur in the current project
list is a no-op on the whole service state (only a warning is logged), and
conversely a selection can only change the active id to an id that occurs
in the project list — the active project can never become a nonexistent
project by selection. -/
theorem c9_select_unknown_project :
    (∀ (st : ServiceState) (pid : String),
      (∀ p ∈ st.projects, p.id ≠ pid) → selectProject st pid = st) ∧
    (∀ (st : ServiceState) (pid : String),
      (selectProject st pid).activeProjectId ≠ st.activeProjectId →
        ∃ p ∈ st.projects, p.id = pid) := by
  constructor
  · intro st pid h
    have hf : st.projects.find? (fun p => p.id == pid) = none := by
      rw [List.find?_eq_none]
      intro p hp
      simpa using h p hp
    simp [selectProject, hf]
  · intro st pid h
    unfold selectProject at h
    cases hf : st.projects.find? (fun p => p.id == pid) with
    | none =>
      rw [hf] at h
      exact absurd rfl h
    | some p =>
      have hmem := List.mem_of_find?_eq_some hf
      have hid := List.find?_some hf
      exact ⟨p, hmem, by simpa using hid⟩

/-- C9 witness: selecting an id absent from a concrete one-project list
leaves the service state unchanged. -/
theorem c9_select_unknown_project_witness :
    selectProject svcOne "nonexistent" = svcOne :=
  c9_select_unknown_project.1 svcOne "nonexistent" (by decide)

end OutbreakX
